import Mathlib

/-!
Verification of the localpgp protocol client (tinyopgp) against its design
specification.

The definitions below are a shallow embedding of the TypeScript sources:
JavaScript objects produced by `JSON.parse` are modelled by the `Json`
inductive (numbers as a decimal mantissa/exponent pair), `atob` and
`JSON.parse` are modelled executably, and each source function is translated
clause by clause.  JavaScript `undefined` is modelled by `Option.none` and
JavaScript `null` by `Json.null` where both can occur.
-/

set_option maxHeartbeats 1000000

/-- A JavaScript value as produced by `JSON.parse`: numbers are kept as a
decimal mantissa and exponent (`num m e` denotes `m * 10 ^ e`). -/
inductive Json where
  | null
  | bool (b : Bool)
  | num (mantissa : Int) (exponent : Int)
  | str (s : String)
  | arr (elems : List Json)
  | obj (fields : List (String × Json))

/-- Property access `o[k]` on a parsed JS object: the last assignment of a
duplicated key wins, a non-object has no properties (`undefined`). -/
def Json.getField : Json → String → Option Json
  | Json.obj fields, k => (fields.reverse.find? (fun p => p.1 = k)).map (fun p => p.2)
  | _, _ => none

/-- JS truthiness of a value (`false`, `0`, `""`, `null` are falsy). -/
def Json.truthy : Json → Bool
  | Json.null => false
  | Json.bool b => b
  | Json.num m _ => m ≠ 0
  | Json.str s => s ≠ ""
  | Json.arr _ => true
  | Json.obj _ => true

/-- Whether a value is JS `null` (property access on it throws). -/
def Json.isNull : Json → Bool
  | Json.null => true
  | _ => false

/-- A JS object literal under construction (insertion ordered, keys unique). -/
abbrev JsObject := List (String × Json)

/-- `o[k]` on an object literal. -/
def jsGet (o : JsObject) (k : String) : Option Json :=
  (List.find? (fun p => p.1 = k) o).map (fun p => p.2)

/-- `o[k] = v` on an object literal: overwrite in place or append. -/
def jsSet (o : JsObject) (k : String) (v : Json) : JsObject :=
  if List.any o (fun p => p.1 = k) then
    List.map (fun p => if p.1 = k then (k, v) else p) o
  else o ++ [(k, v)]

/-! ### `atob` (HTML forgiving base64 decode) -/

/-- ASCII whitespace removed by `atob` before decoding. -/
def isB64Ws (c : Char) : Bool :=
  c = ' ' || c = '\t' || c = '\n' || c = '\r' || c = '\x0c'

/-- Value of one base64 alphabet character. -/
def b64Val (c : Char) : Option Nat :=
  if 'A' ≤ c ∧ c ≤ 'Z' then some (c.toNat - 65)
  else if 'a' ≤ c ∧ c ≤ 'z' then some (c.toNat - 97 + 26)
  else if '0' ≤ c ∧ c ≤ '9' then some (c.toNat - 48 + 52)
  else if c = '+' then some 62
  else if c = '/' then some 63
  else none

/-- Strip one or two trailing `=` when the input length is a multiple of 4. -/
def b64StripPad (cs : List Char) : List Char :=
  if cs.length % 4 = 0 then
    match cs.reverse with
    | '=' :: '=' :: r => r.reverse
    | '=' :: r => r.reverse
    | _ => cs
  else cs

/-- Decode base64 data characters, four at a time, into bytes. -/
def b64DecodeGroups : List Char → Except String (List Nat)
  | [] => Except.ok []
  | [_] => Except.error "InvalidCharacterError"
  | [a, b] =>
    match b64Val a, b64Val b with
    | some va, some vb => Except.ok [(va * 64 + vb) / 16]
    | _, _ => Except.error "InvalidCharacterError"
  | [a, b, c] =>
    match b64Val a, b64Val b, b64Val c with
    | some va, some vb, some vc =>
      Except.ok [((va * 64 + vb) * 64 + vc) / 1024, ((va * 64 + vb) * 64 + vc) / 4 % 256]
    | _, _, _ => Except.error "InvalidCharacterError"
  | a :: b :: c :: d :: rest =>
    match b64Val a, b64Val b, b64Val c, b64Val d with
    | some va, some vb, some vc, some vd =>
      match b64DecodeGroups rest with
      | Except.ok tail =>
        Except.ok ((((va * 64 + vb) * 64 + vc) * 64 + vd) / 65536 ::
          (((va * 64 + vb) * 64 + vc) * 64 + vd) / 256 % 256 ::
          (((va * 64 + vb) * 64 + vc) * 64 + vd) % 256 :: tail)
      | Except.error e => Except.error e
    | _, _, _, _ => Except.error "InvalidCharacterError"

/-- JS `atob`: base64-decode into a binary string (one char per byte). -/
def atob (s : String) : Except String String :=
  let cs := b64StripPad (s.data.filter (fun c => ¬ isB64Ws c))
  if cs.length % 4 = 1 then Except.error "InvalidCharacterError"
  else
    match b64DecodeGroups cs with
    | Except.ok bytes => Except.ok (String.mk (bytes.map Char.ofNat))
    | Except.error e => Except.error e

/-! ### `JSON.parse` -/

/-- JSON insignificant whitespace. -/
def isJsonWs (c : Char) : Bool := c = ' ' || c = '\t' || c = '\n' || c = '\r'

/-- Drop leading JSON whitespace. -/
def skipWs : List Char → List Char
  | [] => []
  | c :: cs => if isJsonWs c then skipWs cs else c :: cs

/-- Value of a hexadecimal digit. -/
def hexVal (c : Char) : Option Nat :=
  if '0' ≤ c ∧ c ≤ '9' then some (c.toNat - 48)
  else if 'a' ≤ c ∧ c ≤ 'f' then some (c.toNat - 87)
  else if 'A' ≤ c ∧ c ≤ 'F' then some (c.toNat - 55)
  else none

/-- Body of a JSON string literal after the opening quote. -/
def parseStringBody : List Char → List Char → Except String (String × List Char)
  | _, [] => Except.error "Unterminated string in JSON"
  | acc, c :: rest =>
    if c = '"' then Except.ok (String.mk acc.reverse, rest)
    else if c = '\\' then
      match rest with
      | [] => Except.error "Bad escape in JSON"
      | e :: rest2 =>
        if e = '"' ∨ e = '\\' ∨ e = '/' then parseStringBody (e :: acc) rest2
        else if e = 'b' then parseStringBody ('\x08' :: acc) rest2
        else if e = 'f' then parseStringBody ('\x0c' :: acc) rest2
        else if e = 'n' then parseStringBody ('\n' :: acc) rest2
        else if e = 'r' then parseStringBody ('\r' :: acc) rest2
        else if e = 't' then parseStringBody ('\t' :: acc) rest2
        else if e = 'u' then
          match rest2 with
          | h1 :: h2 :: h3 :: h4 :: rest3 =>
            match hexVal h1, hexVal h2, hexVal h3, hexVal h4 with
            | some a, some b, some c2, some d =>
              parseStringBody (Char.ofNat (((a * 16 + b) * 16 + c2) * 16 + d) :: acc) rest3
            | _, _, _, _ => Except.error "Bad unicode escape in JSON"
          | _ => Except.error "Bad unicode escape in JSON"
        else Except.error "Bad escape in JSON"
    else if c.toNat < 32 then Except.error "Bad control character in JSON string"
    else parseStringBody (c :: acc) rest

/-- Numeric value of a digit run. -/
def digitsToNat (ds : List Char) : Nat :=
  ds.foldl (fun a c => a * 10 + (c.toNat - 48)) 0

/-- Optional fraction part of a JSON number: its digits and the rest. -/
def parseFractionPart (cs : List Char) : Except String (List Char × List Char) :=
  match cs with
  | '.' :: rest =>
    let ds := rest.takeWhile Char.isDigit
    if ds.isEmpty then Except.error "Bad number in JSON"
    else Except.ok (ds, rest.drop ds.length)
  | _ => Except.ok ([], cs)

/-- Optional exponent part of a JSON number. -/
def parseExponentPart (cs : List Char) : Except String (Int × List Char) :=
  match cs with
  | 'e' :: rest | 'E' :: rest =>
    let (sgn, r2) : Int × List Char :=
      match rest with
      | '+' :: r => (1, r)
      | '-' :: r => (-1, r)
      | r => (1, r)
    let ds := r2.takeWhile Char.isDigit
    if ds.isEmpty then Except.error "Bad exponent in JSON"
    else Except.ok (sgn * Int.ofNat (digitsToNat ds), r2.drop ds.length)
  | _ => Except.ok (0, cs)

/-- A JSON number literal (strict JSON grammar: no leading zeros, no bare dot). -/
def parseNumber (cs : List Char) : Except String (Json × List Char) :=
  let (neg, cs1) : Bool × List Char :=
    match cs with
    | '-' :: r => (true, r)
    | _ => (false, cs)
  let intDigits := cs1.takeWhile Char.isDigit
  let cs2 := cs1.drop intDigits.length
  if intDigits.isEmpty then Except.error "Unexpected token in JSON"
  else if 1 < intDigits.length ∧ intDigits.head? = some '0' then
    Except.error "Unexpected number in JSON"
  else
    match parseFractionPart cs2 with
    | Except.error e => Except.error e
    | Except.ok (fracDigits, cs3) =>
      match parseExponentPart cs3 with
      | Except.error e => Except.error e
      | Except.ok (expVal, cs4) =>
        let mantNat := digitsToNat (intDigits ++ fracDigits)
        let mant : Int := if neg then -(Int.ofNat mantNat) else Int.ofNat mantNat
        Except.ok (Json.num mant (expVal - Int.ofNat fracDigits.length), cs4)

mutual

/-- One JSON value (fuelled recursive descent). -/
def parseVal : Nat → List Char → Except String (Json × List Char)
  | 0, _ => Except.error "JSON too deeply nested"
  | fuel + 1, cs =>
    match skipWs cs with
    | [] => Except.error "Unexpected end of JSON input"
    | '{' :: rest =>
      (match skipWs rest with
       | '}' :: rest2 => Except.ok (Json.obj [], rest2)
       | rest2 =>
         match parseFields fuel rest2 [] with
         | Except.ok (fields, rest3) => Except.ok (Json.obj fields, rest3)
         | Except.error e => Except.error e)
    | '[' :: rest =>
      (match skipWs rest with
       | ']' :: rest2 => Except.ok (Json.arr [], rest2)
       | rest2 =>
         match parseItems fuel rest2 [] with
         | Except.ok (items, rest3) => Except.ok (Json.arr items, rest3)
         | Except.error e => Except.error e)
    | '"' :: rest =>
      (match parseStringBody [] rest with
       | Except.ok (s, rest2) => Except.ok (Json.str s, rest2)
       | Except.error e => Except.error e)
    | 't' :: 'r' :: 'u' :: 'e' :: rest => Except.ok (Json.bool true, rest)
    | 'f' :: 'a' :: 'l' :: 's' :: 'e' :: rest => Except.ok (Json.bool false, rest)
    | 'n' :: 'u' :: 'l' :: 'l' :: rest => Except.ok (Json.null, rest)
    | cs2 => parseNumber cs2

/-- Members of a JSON object after the opening brace. -/
def parseFields : Nat → List Char → List (String × Json) →
    Except String (List (String × Json) × List Char)
  | 0, _, _ => Except.error "JSON too deeply nested"
  | fuel + 1, cs, acc =>
    match skipWs cs with
    | '"' :: rest =>
      (match parseStringBody [] rest with
       | Except.error e => Except.error e
       | Except.ok (k, rest2) =>
         match skipWs rest2 with
         | ':' :: rest3 =>
           (match parseVal fuel rest3 with
            | Except.error e => Except.error e
            | Except.ok (v, rest4) =>
              match skipWs rest4 with
              | ',' :: rest5 => parseFields fuel rest5 (acc ++ [(k, v)])
              | '}' :: rest5 => Except.ok (acc ++ [(k, v)], rest5)
              | _ => Except.error "Expected comma or end of object in JSON")
         | _ => Except.error "Expected colon in JSON object")
    | _ => Except.error "Expected string key in JSON object"

/-- Elements of a JSON array after the opening bracket. -/
def parseItems : Nat → List Char → List Json → Except String (List Json × List Char)
  | 0, _, _ => Except.error "JSON too deeply nested"
  | fuel + 1, cs, acc =>
    match parseVal fuel cs with
    | Except.error e => Except.error e
    | Except.ok (v, rest) =>
      match skipWs rest with
      | ',' :: rest2 => parseItems fuel rest2 (acc ++ [v])
      | ']' :: rest2 => Except.ok (acc ++ [v], rest2)
      | _ => Except.error "Expected comma or end of array in JSON"

end

/-- JS `JSON.parse`: one value, then only trailing whitespace. -/
def jsonParse (s : String) : Except String Json :=
  match parseVal (2 * s.length + 4) s.data with
  | Except.error e => Except.error e
  | Except.ok (j, rest) =>
    if (skipWs rest).isEmpty then Except.ok j
    else Except.error "Unexpected non-whitespace character after JSON"

/-! ### Error taxonomy (`errors.ts`) -/

/-- The error codes of the taxonomy that the verified components raise. -/
inductive ErrorCode where
  | CONN_NO_CONFIG
  | CONN_NO_CONNECT
  | CONN_NATIVEMESSAGE
  | CONN_UNEXPECTED_ANSWER
  | PARAM_WRONG
  | MSG_INCOMPLETE
  | MSG_UNEXPECTED
  | KEY_INVALID
  | KEY_NOKEY
  | KEY_NO_DEFAULT
  | KEY_UNSUPP_ALGO
  | SIG_NO_SIGS
  | SIG_WRONG
  | GNUPG_ERROR
deriving DecidableEq

/-- A `GpgmeError`: a code plus an optional detail value (the `details`
constructor argument; JS passes arbitrary values through the
`string | undefined` cast, so the detail is kept as a `Json` value). -/
structure GpgmeError where
  code : ErrorCode
  details : Option Json := none

/-- Default chunk size for gpgme messages (1023 KB), from `helpers.ts`. -/
def DEFAULT_CHUNKSIZE : Nat := 1023 * 1024

/-! ### Connection (`connection.ts`) -/

/-- One inbound transport event as observed by `handleMessage`:
a JS object with optional `response` and `more` properties. -/
structure InboundEvent where
  response : Option String := none
  more : Option Bool := none

/-- `if (rawResponse.response) responseB64 += rawResponse.response`. -/
def appendResponse (acc : String) (e : InboundEvent) : String :=
  match e.response with
  | some s => if s ≠ "" then acc ++ s else acc
  | none => acc

/-- The continuation message `{op: "getmore", chunksize}`. -/
def getmoreWire (chunkVal : Json) : JsObject :=
  [("op", Json.str "getmore"), ("chunksize", chunkVal)]

/-- `decoded.type === "error"` on the decoded envelope. -/
def isErrorEnvelope (decoded : Json) : Bool :=
  match decoded.getField "type" with
  | some (Json.str t) => t = "error"
  | _ => false

/-- `atob` followed by `JSON.parse`, as in the completion branch of
`handleMessage` (both run inside one `try`). -/
def decodeAndParse (s : String) : Except String Json :=
  match atob s with
  | Except.ok decodedStr => jsonParse decodedStr
  | Except.error e => Except.error e

/-- The outcome of one `Connection.post` exchange. -/
inductive PostOutcome where
  | resolved (decoded : Json)
  | rejected (e : GpgmeError)
  | pending

/-- Completion branch of `handleMessage`: decode the accumulated buffer,
reject `CONN_UNEXPECTED_ANSWER` on a decode/parse failure, reject
`GNUPG_ERROR` with the decoded `msg` on a `type: "error"` envelope,
otherwise resolve with the decoded object.  A buffer decoding to the JSON
value `null` is also a rejection: the `decoded.type` access throws a
TypeError inside the same `try`, so the `catch` rejects
`CONN_UNEXPECTED_ANSWER` carrying the TypeError message (whose exact text is
engine-specific; `JSON.parse` never yields `undefined`, so `null` is the
only decoded value on which property access throws). -/
def completeResponse (buf : String) : PostOutcome :=
  match decodeAndParse buf with
  | Except.error e =>
    PostOutcome.rejected { code := ErrorCode.CONN_UNEXPECTED_ANSWER, details := some (Json.str e) }
  | Except.ok decoded =>
    if decoded.isNull then
      PostOutcome.rejected
        { code := ErrorCode.CONN_UNEXPECTED_ANSWER, details := some (Json.str "decoded is null") }
    else if isErrorEnvelope decoded then
      PostOutcome.rejected { code := ErrorCode.GNUPG_ERROR, details := decoded.getField "msg" }
    else PostOutcome.resolved decoded

/-- The `handleMessage` listener applied to each inbound event in order:
a null event rejects `CONN_UNEXPECTED_ANSWER`; a `more: true` event appends
its fragment, writes one `getmore` continuation and keeps waiting; any other
event appends its fragment and completes.  Returns the continuation writes
and the outcome (`pending` when the transport went silent mid-exchange). -/
def handleEvents (chunkVal : Json) (acc : String) :
    List (Option InboundEvent) → List JsObject × PostOutcome
  | [] => ([], PostOutcome.pending)
  | ev :: rest =>
    match ev with
    | none => ([], PostOutcome.rejected { code := ErrorCode.CONN_UNEXPECTED_ANSWER, details := none })
    | some e =>
      if e.more = some true then
        let r := handleEvents chunkVal (appendResponse acc e) rest
        (getmoreWire chunkVal :: r.1, r.2)
      else ([], completeResponse (appendResponse acc e))

/-- `message.chunksize || DEFAULT_CHUNKSIZE`: the chunk size echoed on
`getmore` continuations. -/
def Connection.chunkValue (message : JsObject) : Json :=
  match jsGet message "chunksize" with
  | some v => if v.truthy then v else Json.num (Int.ofNat DEFAULT_CHUNKSIZE) 0
  | none => Json.num (Int.ofNat DEFAULT_CHUNKSIZE) 0

/-- `Connection.post(message)` over a given inbound event sequence: writes the
serialized message once, then runs `handleMessage` per event.  The first
component collects every transport write (the message itself, then one
`getmore` per continuation). -/
def Connection.post (message : JsObject) (events : List (Option InboundEvent)) :
    List JsObject × PostOutcome :=
  let r := handleEvents (Connection.chunkValue message) "" events
  (message :: r.1, r.2)

/-! ### Operation catalog and Message builder (`message.ts`) -/

/-- The fixed operation set. -/
inductive GpgmeOperation where
  | encrypt
  | decrypt
  | sign
  | verify
  | keylist
  | «export»
  | «import»
  | delete
  | createkey
  | version
  | config_opt
  | getmore
deriving DecidableEq

/-- Wire name of an operation. -/
def GpgmeOperation.name : GpgmeOperation → String
  | encrypt => "encrypt"
  | decrypt => "decrypt"
  | sign => "sign"
  | verify => "verify"
  | keylist => "keylist"
  | «export» => "export"
  | «import» => "import"
  | delete => "delete"
  | createkey => "createkey"
  | version => "version"
  | config_opt => "config_opt"
  | getmore => "getmore"

/-- Catalog entry: required/optional parameter names and the pinentry flag. -/
structure OpDef where
  required : List String := []
  optional : List String := []
  pinentry : Bool := false

/-- The `permittedOperations` catalog. -/
def permittedOperations : GpgmeOperation → OpDef
  | GpgmeOperation.encrypt =>
    { required := ["data", "keys"],
      optional := ["protocol", "signing_keys", "base64", "mime", "armor", "always-trust",
        "no-encrypt-to", "no-compress", "throw-keyids", "wrap", "want-address", "file_name"],
      pinentry := true }
  | GpgmeOperation.decrypt =>
    { required := ["data"], optional := ["protocol", "base64"], pinentry := true }
  | GpgmeOperation.sign =>
    { required := ["data", "keys"], optional := ["protocol", "sender", "mode", "base64"],
      pinentry := true }
  | GpgmeOperation.verify =>
    { required := ["data"], optional := ["protocol", "signature", "base64"] }
  | GpgmeOperation.keylist =>
    { optional := ["keys", "protocol", "secret", "extern", "local", "sigs", "notations",
        "tofu", "ephemeral", "validate", "locate"] }
  | GpgmeOperation.«export» =>
    { optional := ["protocol", "keys", "armor", "extern", "minimal", "raw", "pkcs12",
        "with-sec-fprs", "secret"] }
  | GpgmeOperation.«import» =>
    { required := ["data"], optional := ["protocol", "base64"] }
  | GpgmeOperation.delete =>
    { required := ["key"], optional := ["protocol"] }
  | GpgmeOperation.createkey =>
    { required := ["userid"], optional := ["algo", "expires"], pinentry := true }
  | GpgmeOperation.version => {}
  | GpgmeOperation.config_opt =>
    { required := ["component", "option"] }
  | GpgmeOperation.getmore => {}

/-- A `Message` under construction: the operation and the JS object `this.msg`
initialised to `{op, chunksize}`. -/
structure Message where
  op : GpgmeOperation
  msg : JsObject

/-- `createMessage(op)` / the `Message` constructor. -/
def createMessage (operation : GpgmeOperation) : Message :=
  { op := operation,
    msg := [("op", Json.str operation.name),
            ("chunksize", Json.num (Int.ofNat DEFAULT_CHUNKSIZE) 0)] }

/-- `setParameter(key, value)`: when the operation's allowed list is
non-empty, a key outside it is silently ignored; a `null` (`Json.null`) or
`undefined` (`none`) value is silently ignored; otherwise `this.msg[key] =
value`. -/
def Message.setParameter (m : Message) (key : String) (value : Option Json) : Message :=
  let opDef := permittedOperations m.op
  let allowed := opDef.required ++ opDef.optional
  if 0 < allowed.length ∧ ¬ allowed.contains key then m
  else
    match value with
    | none => m
    | some Json.null => m
    | some v => { m with msg := jsSet m.msg key v }

/-- `isComplete()`: every required parameter name is a key of `this.msg`. -/
def Message.isComplete (m : Message) : Bool :=
  (permittedOperations m.op).required.all (fun param => m.msg.any (fun p => p.1 = param))

/-- `getMissingParams()`: the required parameter names absent from `this.msg`. -/
def Message.getMissingParams (m : Message) : List String :=
  (permittedOperations m.op).required.filter (fun param => ¬ m.msg.any (fun p => p.1 = param))

/-- `toJSON()`: the serialized message object. -/
def Message.toJSON (m : Message) : JsObject := m.msg

/-- `Message.post()`: an incomplete message rejects `MSG_INCOMPLETE` listing
the missing parameter names before any transport interaction (no write, no
`Connection.post`); a complete message is sent through `Connection.post`. -/
def Message.post (m : Message) (events : List (Option InboundEvent)) :
    List JsObject × PostOutcome :=
  if m.isComplete then Connection.post m.toJSON events
  else
    ([], PostOutcome.rejected
      { code := ErrorCode.MSG_INCOMPLETE,
        details := some (Json.str
          ("Missing parameters: " ++ String.intercalate ", " m.getMissingParams)) })

/-! ### Shared string helpers (`helpers.ts`) -/

/-- JS `toUpperCase` (the inputs here are ASCII fingerprints). -/
def jsToUpperCase (s : String) : String := String.mk (s.data.map Char.toUpper)

/-- One hexadecimal character. -/
def isHexDigit (c : Char) : Bool :=
  ('0' ≤ c && c ≤ '9') || ('a' ≤ c && c ≤ 'f') || ('A' ≤ c && c ≤ 'F')

/-- `isFingerprint`: exactly 40 hex characters. -/
def isFingerprint (value : String) : Bool :=
  value.length = 40 && value.data.all isHexDigit

/-- `timestampToDate`: a Unix timestamp as a JS `Date` (epoch milliseconds). -/
def timestampToDate (timestamp : Int) : Int := timestamp * 1000

/-! ### Signature normalizer (`signature.ts`) -/

/-- The raw `summary` sub-object of a gpgme-json signature record. -/
structure RawSummary where
  valid : Option Bool := none
  green : Option Bool := none
  red : Option Bool := none
  keyRevoked : Option Bool := none
  keyExpired : Option Bool := none
  sigExpired : Option Bool := none
  keyMissing : Option Bool := none
  crlMissing : Option Bool := none
  crlTooOld : Option Bool := none
  badPolicy : Option Bool := none
  sysError : Option Bool := none

/-- A raw signature record from gpgme-json (the fields `createSignature`
reads; absent fields are `none`). -/
structure RawSignature where
  fingerprint : Option String := none
  timestamp : Option Int := none
  exp_timestamp : Option Int := none
  summary : Option RawSummary := none
  validity : Option Int := none
  validity_reason : Option Int := none
  status_code : Option Int := none
  status_string : Option String := none

/-- The normalized ten-facet summary. -/
structure SignatureSummary where
  valid : Bool
  green : Bool
  red : Bool
  keyRevoked : Bool
  keyExpired : Bool
  sigExpired : Bool
  keyMissing : Bool
  crlMissing : Bool
  crlTooOld : Bool
  badPolicy : Bool
  sysError : Bool

/-- The normalized signature record. -/
structure SignatureInfo where
  fingerprint : String
  valid : Bool
  summary : SignatureSummary
  status : Option String := none
  created : Option Int := none
  expires : Option Int := none

/-- `createSignature(sigObject)` on a (non-null) raw record: normalize the
summary with `?? false` defaults, upper-case the fingerprint, and derive
`valid = (status_code === 0 || summary.valid) && !summary.red`. -/
def createSignature (sigObject : RawSignature) : SignatureInfo :=
  let summary : SignatureSummary :=
    { valid := (sigObject.summary.bind RawSummary.valid).getD false
      green := (sigObject.summary.bind RawSummary.green).getD false
      red := (sigObject.summary.bind RawSummary.red).getD false
      keyRevoked := (sigObject.summary.bind RawSummary.keyRevoked).getD false
      keyExpired := (sigObject.summary.bind RawSummary.keyExpired).getD false
      sigExpired := (sigObject.summary.bind RawSummary.sigExpired).getD false
      keyMissing := (sigObject.summary.bind RawSummary.keyMissing).getD false
      crlMissing := (sigObject.summary.bind RawSummary.crlMissing).getD false
      crlTooOld := (sigObject.summary.bind RawSummary.crlTooOld).getD false
      badPolicy := (sigObject.summary.bind RawSummary.badPolicy).getD false
      sysError := (sigObject.summary.bind RawSummary.sysError).getD false }
  { fingerprint := (sigObject.fingerprint.map jsToUpperCase).getD ""
    valid := (decide (sigObject.status_code = some 0) || summary.valid) && !summary.red
    summary := summary
    status :=
      match sigObject.status_string with
      | some s => if s ≠ "" then some s else none
      | none => none
    created :=
      match sigObject.timestamp with
      | some t => if t ≠ 0 then some (timestampToDate t) else none
      | none => none
    expires :=
      match sigObject.exp_timestamp with
      | some t => if t ≠ 0 ∧ 0 < t then some (timestampToDate t) else none
      | none => none }

/-- A record of the `good` list: parsed, then `valid` forced to `true`. -/
def goodSignature (sig : RawSignature) : SignatureInfo :=
  { createSignature sig with valid := true }

/-- A record of the `bad` list: parsed, then `valid` recomputed — key missing
or status 9 force `false`; status 0 with validity 3 gives `true`; anything
else gives `false`. -/
def badSignature (sig : RawSignature) : SignatureInfo :=
  if (createSignature sig).summary.keyMissing || decide (sig.status_code = some 9) then
    { createSignature sig with valid := false }
  else if sig.status_code = some 0 ∧ sig.validity = some 3 then
    { createSignature sig with valid := true }
  else
    { createSignature sig with valid := false }

/-- The two accepted shapes of `info.signatures`; `none` entries model JS
`null` records, which make `createSignature` throw and are skipped. -/
inductive SignaturesData where
  | flat (sigs : List (Option RawSignature))
  | grouped (good : Option (List (Option RawSignature)))
      (bad : Option (List (Option RawSignature)))

/-- `collectSignatures(signaturesData)`: a flat list maps `createSignature`;
a grouped object maps `good` (forced valid) then `bad` (recomputed). -/
def collectSignatures : SignaturesData → List SignatureInfo
  | SignaturesData.flat sigs => sigs.filterMap (fun s => s.map createSignature)
  | SignaturesData.grouped good bad =>
    (good.getD []).filterMap (fun s => s.map goodSignature) ++
      (bad.getD []).filterMap (fun s => s.map badSignature)

/-- `allSignaturesValid(signatures)`. -/
def allSignaturesValid (signatures : List SignatureInfo) : Bool :=
  if signatures.length = 0 then false
  else signatures.all (fun sig => sig.valid)

/-! ### Key normalizer (`key.ts`) -/

/-- A raw user id record. -/
structure RawUserId where
  uid : Option String := none
  name : Option String := none
  email : Option String := none
  comment : Option String := none
  revoked : Option Bool := none
  invalid : Option Bool := none

/-- A raw subkey record. -/
structure RawSubKey where
  keyid : Option String := none
  fingerprint : Option String := none
  timestamp : Option Int := none
  expires : Option Int := none
  revoked : Option Bool := none
  expired : Option Bool := none
  disabled : Option Bool := none
  invalid : Option Bool := none
  can_encrypt : Option Bool := none
  can_sign : Option Bool := none
  can_certify : Option Bool := none
  can_authenticate : Option Bool := none
  pubkey_algo_name : Option String := none
  length : Option Int := none
  curve : Option String := none
  is_cardkey : Option Bool := none
  card_number : Option String := none

/-- A raw key record from a gpgme-json keylist. -/
structure RawKeyData where
  fingerprint : Option String := none
  revoked : Option Bool := none
  expired : Option Bool := none
  disabled : Option Bool := none
  invalid : Option Bool := none
  can_encrypt : Option Bool := none
  can_sign : Option Bool := none
  can_certify : Option Bool := none
  can_authenticate : Option Bool := none
  secret : Option Bool := none
  subkeys : Option (List RawSubKey) := none
  userids : Option (List RawUserId) := none

/-- The normalized user id. -/
structure UserId where
  uid : String
  name : String
  email : String
  comment : Option String
  isRevoked : Bool
  isInvalid : Bool

/-- The normalized subkey (dates as epoch milliseconds). -/
structure SubKey where
  keyId : String
  fingerprint : String
  created : Int
  expires : Option Int
  isRevoked : Bool
  isExpired : Bool
  isDisabled : Bool
  isInvalid : Bool
  canEncrypt : Bool
  canSign : Bool
  canCertify : Bool
  canAuthenticate : Bool
  algorithm : String
  length : Int
  curve : Option String
  isCardKey : Bool
  cardNumber : Option String

/-- The normalized key. -/
structure Key where
  fingerprint : String
  keyId : String
  userIds : List UserId
  subkeys : List SubKey
  hasSecret : Bool
  canEncrypt : Bool
  canSign : Bool
  canCertify : Bool
  canAuthenticate : Bool
  isRevoked : Bool
  isExpired : Bool
  isDisabled : Bool
  isInvalid : Bool
  created : Int
  expires : Option Int

/-- `parseSubKey(raw)`. -/
def parseSubKey (raw : RawSubKey) : SubKey :=
  { keyId := (raw.keyid.map jsToUpperCase).getD ""
    fingerprint := (raw.fingerprint.map jsToUpperCase).getD ""
    created :=
      match raw.timestamp with
      | some t => if t ≠ 0 then timestampToDate t else 0
      | none => 0
    expires :=
      match raw.expires with
      | some t => if t ≠ 0 ∧ 0 < t then some (timestampToDate t) else none
      | none => none
    isRevoked := raw.revoked.getD false
    isExpired := raw.expired.getD false
    isDisabled := raw.disabled.getD false
    isInvalid := raw.invalid.getD false
    canEncrypt := raw.can_encrypt.getD false
    canSign := raw.can_sign.getD false
    canCertify := raw.can_certify.getD false
    canAuthenticate := raw.can_authenticate.getD false
    algorithm := raw.pubkey_algo_name.getD ""
    length := raw.length.getD 0
    curve := raw.curve
    isCardKey := raw.is_cardkey.getD false
    cardNumber := raw.card_number }

/-- `parseUserId(raw)`. -/
def parseUserId (raw : RawUserId) : UserId :=
  { uid := raw.uid.getD ""
    name := raw.name.getD ""
    email := raw.email.getD ""
    comment := raw.comment
    isRevoked := raw.revoked.getD false
    isInvalid := raw.invalid.getD false }

/-- The key-object construction step of `createKey`, applied to the
normalized fingerprint and the retained raw data: flags normalized with
`?? false` defaults, capability fallbacks over subkeys, primary dates from
the first subkey. -/
def createKeyData (normalizedFpr : String) (keyData : RawKeyData) : Key :=
  let subkeys := (keyData.subkeys.getD []).map parseSubKey
  let userIds := (keyData.userids.getD []).map parseUserId
  { fingerprint := normalizedFpr
    keyId := String.mk (normalizedFpr.data.drop (normalizedFpr.length - 16))
    userIds := userIds
    subkeys := subkeys
    hasSecret := keyData.secret.getD false
    canEncrypt := keyData.can_encrypt.getD (subkeys.any (fun s => s.canEncrypt))
    canSign := keyData.can_sign.getD (subkeys.any (fun s => s.canSign))
    canCertify := keyData.can_certify.getD (subkeys.any (fun s => s.canCertify))
    canAuthenticate := keyData.can_authenticate.getD (subkeys.any (fun s => s.canAuthenticate))
    isRevoked := keyData.revoked.getD false
    isExpired := keyData.expired.getD false
    isDisabled := keyData.disabled.getD false
    isInvalid := keyData.invalid.getD false
    created :=
      match subkeys.head? with
      | some sk => sk.created
      | none => 0
    expires := subkeys.head?.bind (fun sk => sk.expires) }

/-- `createKey(fingerprint, data?)`: reject a non-40-hex fingerprint with
`KEY_INVALID`; discard raw data whose upper-cased fingerprint differs from
the normalized requested one; otherwise build the key from the retained
data. -/
def createKey (fingerprint : String) (data : Option RawKeyData) : Except GpgmeError Key :=
  if ¬ isFingerprint fingerprint then
    Except.error
      { code := ErrorCode.KEY_INVALID,
        details := some (Json.str ("Invalid fingerprint: " ++ fingerprint)) }
  else
    let normalizedFpr := jsToUpperCase fingerprint
    let keyData : RawKeyData :=
      match data with
      | some d =>
        if d.fingerprint.map jsToUpperCase = some normalizedFpr then d
        else { fingerprint := some normalizedFpr }
      | none => { fingerprint := some normalizedFpr }
    Except.ok (createKeyData normalizedFpr keyData)

/-! ### Keyring (`keyring.ts`) -/

/-- Per-key import status buckets. -/
inductive ImportStatus where
  | newkey
  | change
  | nochange
deriving DecidableEq

/-- The `changes` record of an imported key. -/
structure KeyChanges where
  userId : Bool
  signature : Bool
  subkey : Bool
deriving DecidableEq

/-- The status/changes decoding of one entry of `response.imports` inside
`GPGMEKeyring.importKey`: status 0 is `nochange`, an odd status is `newkey`,
any other status is `change`; bits 1/2/3 flag userid/signature/subkey
changes. -/
def decodeImportStatus (status : Nat) : ImportStatus × KeyChanges :=
  let st :=
    if status = 0 then ImportStatus.nochange
    else if status &&& 1 = 1 then ImportStatus.newkey
    else ImportStatus.change
  (st,
    { userId := decide (status &&& 2 = 2)
      signature := decide (status &&& 4 = 4)
      subkey := decide (status &&& 8 = 8) })

/-- The scan predicate of `getDefaultKey`'s fallback loop:
`!invalid && !expired && !revoked && can_sign`. -/
def qualifiesAsDefault (keyData : RawKeyData) : Bool :=
  !keyData.invalid.getD false && !keyData.expired.getD false &&
    !keyData.revoked.getD false && keyData.can_sign.getD false

/-- The fallback branch of `GPGMEKeyring.getDefaultKey` applied to the raw
secret keylist (`none` models an absent `keys` field): an empty list throws
`KEY_NO_DEFAULT`; otherwise the first qualifying key is returned with
`secret: true` merged in; no qualifying key throws `KEY_NO_DEFAULT`. -/
def getDefaultKeyFallback (rawKeys : Option (List RawKeyData)) : Except GpgmeError Key :=
  match rawKeys with
  | none => Except.error { code := ErrorCode.KEY_NO_DEFAULT }
  | some keys =>
    if keys.length = 0 then Except.error { code := ErrorCode.KEY_NO_DEFAULT }
    else
      match keys.find? qualifiesAsDefault with
      | some keyData =>
        createKey (keyData.fingerprint.getD "undefined") (some { keyData with secret := some true })
      | none => Except.error { code := ErrorCode.KEY_NO_DEFAULT }

/-! ### Helper lemmas -/

/-- `n &&& 2 ^ i = 2 ^ i` is exactly bit `i` of `n`. -/
theorem and_two_pow_eq_self_iff (n i : Nat) : n &&& 2 ^ i = 2 ^ i ↔ n.testBit i = true := by
  rw [Nat.and_two_pow]
  cases h : n.testBit i
  · simp only [Bool.toNat_false, Nat.zero_mul]
    constructor
    · intro hc
      exact absurd hc.symm (Nat.pos_iff_ne_zero.mp (pow_pos (by norm_num) i))
    · intro hc
      cases hc
  · simp

/-! ### Claim theorems -/

/-- C10: `allSignaturesValid` is false on the empty list and, on a non-empty
list, true exactly when every entry has `valid = true`. -/
theorem allSignaturesValid_iff (signatures : List SignatureInfo) :
    allSignaturesValid signatures = true ↔
      signatures ≠ [] ∧ ∀ sig ∈ signatures, sig.valid = true := by
  unfold allSignaturesValid
  cases signatures with
  | nil => simp
  | cons s rest => simp [List.all_eq_true]

/-- C4: a record parsed from a flat list yields
`valid = (status_code == 0 OR summary.valid) AND NOT summary.red`, with the
summary flags defaulting to false when absent, and the flat branch of
`collectSignatures` applies `createSignature` unchanged. -/
theorem createSignature_flat_valid (sig : RawSignature) :
    ((createSignature sig).valid =
      ((decide (sig.status_code = some 0) ||
          (sig.summary.map (fun s => s.valid.getD false)).getD false) &&
        !((sig.summary.map (fun s => s.red.getD false)).getD false))) ∧
    collectSignatures (SignaturesData.flat [some sig]) = [createSignature sig] := by
  constructor
  · unfold createSignature
    cases sig.summary <;> simp
  · rfl

/-- C3: a `bad`-list record is invalid whenever the normalized summary has
`keyMissing` or the raw status code is 9; otherwise it is valid exactly when
the status code is 0 and validity is 3; a `good`-list record is always
valid. -/
theorem badSignature_goodSignature_valid (sig : RawSignature) :
    ((badSignature sig).summary.keyMissing = true ∨ sig.status_code = some 9 →
      (badSignature sig).valid = false) ∧
    ((badSignature sig).summary.keyMissing = false → sig.status_code ≠ some 9 →
      ((badSignature sig).valid = true ↔ sig.status_code = some 0 ∧ sig.validity = some 3)) ∧
    (goodSignature sig).valid = true ∧
    collectSignatures (SignaturesData.grouped (some [some sig]) (some [some sig])) =
      [goodSignature sig, badSignature sig] := by
  have hsum : (badSignature sig).summary = (createSignature sig).summary := by
    unfold badSignature
    split_ifs <;> rfl
  refine ⟨?_, ?_, rfl, rfl⟩
  · intro h
    unfold badSignature
    rcases h with h | h
    · rw [hsum] at h
      simp only [h]
      split
      · rfl
      · rename_i hcond
        exact absurd (by simp [h]) hcond
    · split
      · rfl
      · rename_i hcond
        exact absurd (by simp [h]) hcond
  · intro hkm h9
    rw [hsum] at hkm
    unfold badSignature
    split
    · rename_i hcond
      rw [hkm] at hcond
      simp at hcond
      exact absurd hcond h9
    · split
      · rename_i hok
        simp [hok]
      · rename_i hnot
        constructor
        · intro hfalse
          cases hfalse
        · intro hok
          exact absurd hok hnot

/-- C8: import status 0 decodes to `nochange`, bit 0 set decodes to `newkey`,
a non-zero status with bit 0 clear decodes to `change`, and the three change
flags are bits 1, 2 and 3 of the status. -/
theorem decodeImportStatus_spec (status : Nat) :
    (status = 0 → (decodeImportStatus status).1 = ImportStatus.nochange) ∧
    (status.testBit 0 = true → (decodeImportStatus status).1 = ImportStatus.newkey) ∧
    (status ≠ 0 → status.testBit 0 = false → (decodeImportStatus status).1 = ImportStatus.change) ∧
    (decodeImportStatus status).2.userId = status.testBit 1 ∧
    (decodeImportStatus status).2.signature = status.testBit 2 ∧
    (decodeImportStatus status).2.subkey = status.testBit 3 := by
  have h1 : (status &&& 1 = 1) ↔ status.testBit 0 = true := by
    have h := and_two_pow_eq_self_iff status 0
    rw [pow_zero] at h
    exact h
  have h2 : (status &&& 2 = 2) ↔ status.testBit 1 = true := by
    have := and_two_pow_eq_self_iff status 1
    simpa using this
  have h4 : (status &&& 4 = 4) ↔ status.testBit 2 = true := by
    have := and_two_pow_eq_self_iff status 2
    simpa using this
  have h8 : (status &&& 8 = 8) ↔ status.testBit 3 = true := by
    have := and_two_pow_eq_self_iff status 3
    simpa using this
  refine ⟨?_, ?_, ?_, ?_, ?_, ?_⟩
  · intro h
    subst h
    rfl
  · intro h
    have hz : status ≠ 0 := by
      intro hc
      rw [hc] at h
      rw [Nat.zero_testBit] at h
      cases h
    have ha : status &&& 1 = 1 := h1.mpr h
    show (if status = 0 then ImportStatus.nochange
      else if status &&& 1 = 1 then ImportStatus.newkey else ImportStatus.change) =
        ImportStatus.newkey
    rw [if_neg hz, if_pos ha]
  · intro hz hbit
    have ha : ¬ (status &&& 1 = 1) := by
      intro hc
      have := h1.mp hc
      rw [hbit] at this
      cases this
    show (if status = 0 then ImportStatus.nochange
      else if status &&& 1 = 1 then ImportStatus.newkey else ImportStatus.change) =
        ImportStatus.change
    rw [if_neg hz, if_neg ha]
  · show decide (status &&& 2 = 2) = status.testBit 1
    cases hb : status.testBit 1
    · exact decide_eq_false (fun hc => by
        have := h2.mp hc
        rw [hb] at this
        cases this)
    · exact decide_eq_true (h2.mpr hb)
  · show decide (status &&& 4 = 4) = status.testBit 2
    cases hb : status.testBit 2
    · exact decide_eq_false (fun hc => by
        have := h4.mp hc
        rw [hb] at this
        cases this)
    · exact decide_eq_true (h4.mpr hb)
  · show decide (status &&& 8 = 8) = status.testBit 3
    cases hb : status.testBit 3
    · exact decide_eq_false (fun hc => by
        have := h8.mp hc
        rw [hb] at this
        cases this)
    · exact decide_eq_true (h8.mpr hb)

/-- C8 witness: status 2 decodes to `change` with only the userId flag. -/
theorem decodeImportStatus_spec_witness :
    (decodeImportStatus 2).1 = ImportStatus.change ∧
    (decodeImportStatus 2).2.userId = true := by
  refine ⟨(decodeImportStatus_spec 2).2.2.1 (by decide) (by decide), ?_⟩
  rw [(decodeImportStatus_spec 2).2.2.2.1]
  decide

/-- C3 witness: a key-missing record of the `bad` list is invalid, and a
status-0/validity-3 record of the `bad` list is valid. -/
theorem badSignature_goodSignature_valid_witness :
    (badSignature
      { status_code := some 0
        validity := some 3
        summary := some { keyMissing := some true } }).valid = false ∧
    (badSignature { status_code := some 0, validity := some 3 }).valid = true := by
  constructor
  · exact (badSignature_goodSignature_valid _).1 (Or.inl rfl)
  · exact ((badSignature_goodSignature_valid
      { status_code := some 0, validity := some 3 }).2.1 rfl (by decide)).mpr ⟨rfl, rfl⟩

/-- C2 counterexample: `version` has no required or optional parameters, yet
`setParameter` on a `version` message stores the disallowed key `foo`, which
then appears in the serialized message. -/
theorem setParameter_version_leaks :
    (permittedOperations GpgmeOperation.version).required = [] ∧
    (permittedOperations GpgmeOperation.version).optional = [] ∧
    jsGet ((createMessage GpgmeOperation.version).setParameter "foo"
        (some (Json.bool true))).toJSON "foo" = some (Json.bool true) :=
  ⟨rfl, rfl, rfl⟩

/-- C2 amended: for an operation whose catalog entry lists at least one
required-or-optional parameter, `setParameter` with a key outside that list
leaves the message unchanged; for every operation a `null`/`undefined` value
is a silent no-op; `setParameter` is total (never throws). -/
theorem setParameter_spec (m : Message) (key : String) (value : Option Json) :
    (((permittedOperations m.op).required ++ (permittedOperations m.op).optional) ≠ [] →
      key ∉ (permittedOperations m.op).required →
      key ∉ (permittedOperations m.op).optional →
      m.setParameter key value = m) ∧
    m.setParameter key none = m ∧
    m.setParameter key (some Json.null) = m := by
  refine ⟨?_, ?_, ?_⟩ <;> unfold Message.setParameter <;> dsimp only
  · intro hne hreq hopt
    rw [if_pos]
    constructor
    · exact List.length_pos.mpr hne
    · simp [hreq, hopt]
  · by_cases hc : 0 < ((permittedOperations m.op).required ++
        (permittedOperations m.op).optional).length ∧
      ¬ ((permittedOperations m.op).required ++
        (permittedOperations m.op).optional).contains key = true
    · rw [if_pos hc]
    · rw [if_neg hc]
  · by_cases hc : 0 < ((permittedOperations m.op).required ++
        (permittedOperations m.op).optional).length ∧
      ¬ ((permittedOperations m.op).required ++
        (permittedOperations m.op).optional).contains key = true
    · rw [if_pos hc]
    · rw [if_neg hc]

/-- C2 witness: a disallowed key on an `encrypt` message is dropped. -/
theorem setParameter_spec_witness :
    (createMessage GpgmeOperation.encrypt).setParameter "foo" (some (Json.bool true)) =
      createMessage GpgmeOperation.encrypt :=
  (setParameter_spec (createMessage GpgmeOperation.encrypt) "foo" (some (Json.bool true))).1
    (by decide) (by decide) (by decide)

/-- C5: posting a message with a missing required parameter rejects
`MSG_INCOMPLETE`, its detail listing the missing required parameter names,
with no transport write (the write trace is empty, so `Connection.post` was
never reached). -/
theorem message_post_incomplete (m : Message) (events : List (Option InboundEvent))
    (h : m.isComplete = false) :
    m.post events =
      ([], PostOutcome.rejected
        { code := ErrorCode.MSG_INCOMPLETE,
          details := some (Json.str
            ("Missing parameters: " ++ String.intercalate ", " m.getMissingParams)) }) := by
  unfold Message.post
  rw [if_neg]
  rw [h]
  exact Bool.false_ne_true

/-- C5 witness: an `encrypt` message without `keys` rejects `MSG_INCOMPLETE`
naming `keys`, writing nothing. -/
theorem message_post_incomplete_witness :
    ((createMessage GpgmeOperation.encrypt).setParameter "data" (some (Json.str "x"))).post [] =
      ([], PostOutcome.rejected
        { code := ErrorCode.MSG_INCOMPLETE,
          details := some (Json.str "Missing parameters: keys") }) := by
  rw [message_post_incomplete
    ((createMessage GpgmeOperation.encrypt).setParameter "data" (some (Json.str "x")))
    [] (by rfl)]
  rfl

/-- C7: `createKey` rejects any fingerprint that is not 40 hex characters
with `KEY_INVALID`; with a valid fingerprint but raw data whose fingerprint
differs case-insensitively, the raw data is discarded and a minimal key is
produced: upper-cased fingerprint, key id its last 16 characters, all
capability/lifecycle/secret flags false, no user ids, no subkeys. -/
theorem createKey_spec (fpr : String) (d : RawKeyData) :
    (isFingerprint fpr = false →
      ∀ data, createKey fpr data =
        Except.error
          { code := ErrorCode.KEY_INVALID,
            details := some (Json.str ("Invalid fingerprint: " ++ fpr)) }) ∧
    (isFingerprint fpr = true →
      d.fingerprint.map jsToUpperCase ≠ some (jsToUpperCase fpr) →
      createKey fpr (some d) = Except.ok
        { fingerprint := jsToUpperCase fpr
          keyId := String.mk ((jsToUpperCase fpr).data.drop ((jsToUpperCase fpr).length - 16))
          userIds := []
          subkeys := []
          hasSecret := false
          canEncrypt := false
          canSign := false
          canCertify := false
          canAuthenticate := false
          isRevoked := false
          isExpired := false
          isDisabled := false
          isInvalid := false
          created := 0
          expires := none }) := by
  constructor
  · intro h data
    unfold createKey
    rw [if_pos]
    rw [h]
    exact Bool.false_ne_true
  · intro h hmm
    unfold createKey
    rw [if_neg (by rw [h]; exact fun hc => hc rfl)]
    dsimp only
    rw [if_neg hmm]
    rfl

/-- C7 witness: a 3-character fingerprint is rejected, and a valid request
fingerprint with mismatching raw data yields the minimal all-false key. -/
theorem createKey_spec_witness :
    createKey "zzz" none =
      Except.error
        { code := ErrorCode.KEY_INVALID,
          details := some (Json.str "Invalid fingerprint: zzz") } ∧
    createKey "aaaaaaaaaaaaaaaaaaaaaaaaaaaaaaaaaaaaaaaa"
        (some { fingerprint := some "BBBBBBBBBBBBBBBBBBBBBBBBBBBBBBBBBBBBBBBB"
                secret := some true
                can_sign := some true }) =
      Except.ok
        { fingerprint := "AAAAAAAAAAAAAAAAAAAAAAAAAAAAAAAAAAAAAAAA"
          keyId := "AAAAAAAAAAAAAAAA"
          userIds := []
          subkeys := []
          hasSecret := false
          canEncrypt := false
          canSign := false
          canCertify := false
          canAuthenticate := false
          isRevoked := false
          isExpired := false
          isDisabled := false
          isInvalid := false
          created := 0
          expires := none } := by
  constructor
  · exact ((createKey_spec "zzz" {}).1 rfl none).trans (by rfl)
  · exact ((createKey_spec "aaaaaaaaaaaaaaaaaaaaaaaaaaaaaaaaaaaaaaaa"
      { fingerprint := some "BBBBBBBBBBBBBBBBBBBBBBBBBBBBBBBBBBBBBBBB"
        secret := some true
        can_sign := some true }).2 rfl (by decide)).trans (by rfl)

/-- `find?` skips a prefix on which the predicate is false. -/
theorem find?_append_first (p : RawKeyData → Bool) (pre : List RawKeyData)
    (k : RawKeyData) (rest : List RawKeyData)
    (hpre : ∀ k' ∈ pre, p k' = false) (hk : p k = true) :
    List.find? p (pre ++ k :: rest) = some k := by
  induction pre with
  | nil =>
    simp [List.find?_cons, hk]
  | cons a as ih =>
    have ha := hpre a (by simp)
    rw [List.cons_append, List.find?_cons, ha]
    exact ih (fun k' hk' => hpre k' (by simp [hk']))

/-- C9: with a non-empty secret keylist, the fallback scan of
`getDefaultKey` returns the key built from the first record that is not
invalid, not expired, not revoked and sign-capable (with `secret: true`
merged in, so the result has a secret); an absent, empty or fully
non-qualifying keylist raises `KEY_NO_DEFAULT`. -/
theorem getDefaultKey_fallback_spec (pre : List RawKeyData) (k : RawKeyData)
    (rest : List RawKeyData) (f : String)
    (hpre : ∀ k' ∈ pre, qualifiesAsDefault k' = false)
    (hk : qualifiesAsDefault k = true)
    (hf : k.fingerprint = some f)
    (hfp : isFingerprint f = true) :
    getDefaultKeyFallback (some (pre ++ k :: rest)) =
      createKey f (some { k with secret := some true }) ∧
    (∀ key, createKey f (some { k with secret := some true }) = Except.ok key →
      key.hasSecret = true) ∧
    (∀ keys : List RawKeyData, (∀ k' ∈ keys, qualifiesAsDefault k' = false) →
      getDefaultKeyFallback (some keys) =
        Except.error { code := ErrorCode.KEY_NO_DEFAULT }) ∧
    getDefaultKeyFallback none = Except.error { code := ErrorCode.KEY_NO_DEFAULT } := by
  refine ⟨?_, ?_, ?_, rfl⟩
  · unfold getDefaultKeyFallback
    dsimp only
    rw [if_neg (by simp)]
    rw [find?_append_first qualifiesAsDefault pre k rest hpre hk]
    dsimp only
    rw [hf]
    rfl
  · intro key hkey
    unfold createKey at hkey
    rw [if_neg (by rw [hfp]; exact fun hc => hc rfl)] at hkey
    dsimp only at hkey
    rw [if_pos (by rw [hf]; rfl)] at hkey
    injection hkey with hkey
    rw [← hkey]
    rfl
  · intro keys hall
    unfold getDefaultKeyFallback
    cases keys with
    | nil => rfl
    | cons a as =>
      dsimp only
      rw [if_neg (by simp)]
      rw [List.find?_eq_none.mpr (fun x hx => by rw [hall x hx]; exact Bool.false_ne_true)]

/-- C9 witness: the first sign-capable secret key is returned, skipping an
earlier key lacking `can_sign`. -/
theorem getDefaultKey_fallback_spec_witness :
    getDefaultKeyFallback (some
      [ { fingerprint := some "AAAAAAAAAAAAAAAAAAAAAAAAAAAAAAAAAAAAAAAA"
          can_sign := some false },
        { fingerprint := some "BBBBBBBBBBBBBBBBBBBBBBBBBBBBBBBBBBBBBBBB"
          can_sign := some true } ]) =
      createKey "BBBBBBBBBBBBBBBBBBBBBBBBBBBBBBBBBBBBBBBB"
        (some { fingerprint := some "BBBBBBBBBBBBBBBBBBBBBBBBBBBBBBBBBBBBBBBB"
                can_sign := some true
                secret := some true }) := by
  have h := getDefaultKey_fallback_spec
    [ { fingerprint := some "AAAAAAAAAAAAAAAAAAAAAAAAAAAAAAAAAAAAAAAA"
        can_sign := some false } ]
    { fingerprint := some "BBBBBBBBBBBBBBBBBBBBBBBBBBBBBBBBBBBBBBBB"
      can_sign := some true }
    [] "BBBBBBBBBBBBBBBBBBBBBBBBBBBBBBBBBBBBBBBB"
    (by
      intro k' hk'
      rw [List.mem_singleton] at hk'
      subst hk'
      rfl)
    rfl rfl rfl
  exact h.1

/-- Unfolding `handleEvents` at a non-null event. -/
theorem handleEvents_cons_some (cv : Json) (acc : String) (e : InboundEvent)
    (rest : List (Option InboundEvent)) :
    handleEvents cv acc (some e :: rest) =
      if e.more = some true then
        (getmoreWire cv :: (handleEvents cv (appendResponse acc e) rest).1,
          (handleEvents cv (appendResponse acc e) rest).2)
      else ([], completeResponse (appendResponse acc e)) := rfl

/-- Reassembly: events with `more: true` followed by a final event emit one
`getmore` per continuation and complete on the concatenated buffer. -/
theorem handleEvents_chunked (cv : Json) (acc : String) (events : List InboundEvent)
    (final : InboundEvent)
    (hmore : ∀ e ∈ events, e.more = some true) (hfin : ¬ final.more = some true) :
    handleEvents cv acc (List.map some (events ++ [final])) =
      (List.replicate events.length (getmoreWire cv),
        completeResponse (List.foldl appendResponse acc (events ++ [final]))) := by
  revert hmore
  induction events generalizing acc with
  | nil =>
    intro _
    simp only [List.nil_append, List.map_cons, List.map_nil, List.length_nil,
      List.replicate_zero, List.foldl_cons, List.foldl_nil]
    rw [handleEvents_cons_some, if_neg hfin]
  | cons e es ih =>
    intro hmore
    have he : e.more = some true := hmore e (by simp)
    simp only [List.cons_append, List.map_cons, List.length_cons, List.foldl_cons]
    rw [handleEvents_cons_some, if_pos he]
    rw [ih (appendResponse acc e) (fun e' h' => hmore e' (List.mem_cons_of_mem _ h'))]
    simp [List.replicate_succ]

/-- A successfully decoded non-null, non-error envelope resolves. -/
theorem completeResponse_resolves (buf : String) (envelope : Json)
    (hdec : decodeAndParse buf = Except.ok envelope)
    (hnull : envelope.isNull = false)
    (herr : isErrorEnvelope envelope = false) :
    completeResponse buf = PostOutcome.resolved envelope := by
  unfold completeResponse
  rw [hdec]
  dsimp only
  rw [if_neg (by rw [hnull]; exact Bool.false_ne_true)]
  rw [if_neg (by rw [herr]; exact Bool.false_ne_true)]

/-- A successfully decoded `type: "error"` envelope rejects `GNUPG_ERROR`
(such an envelope is an object, hence not `null`). -/
theorem completeResponse_gnupg_error (buf : String) (envelope : Json)
    (hdec : decodeAndParse buf = Except.ok envelope)
    (herr : isErrorEnvelope envelope = true) :
    completeResponse buf =
      PostOutcome.rejected
        { code := ErrorCode.GNUPG_ERROR, details := envelope.getField "msg" } := by
  have hnull : envelope.isNull = false := by
    cases envelope
    case null => exact Bool.noConfusion herr
    all_goals rfl
  unfold completeResponse
  rw [hdec]
  dsimp only
  rw [if_neg (by rw [hnull]; exact Bool.false_ne_true)]
  rw [if_pos herr]

/-- A decode/parse failure rejects `CONN_UNEXPECTED_ANSWER` with its detail. -/
theorem completeResponse_decode_failure (buf : String) (errDetail : String)
    (hdec : decodeAndParse buf = Except.error errDetail) :
    completeResponse buf =
      PostOutcome.rejected
        { code := ErrorCode.CONN_UNEXPECTED_ANSWER,
          details := some (Json.str errDetail) } := by
  unfold completeResponse
  rw [hdec]

/-- C1: for N inbound events whose first N−1 carry `more: true` (and the
last does not), with the concatenated `response` fragments decoding to a
valid envelope (non-`null`, so the `decoded.type` access does not throw,
and not of `type: "error"`), `Connection.post` resolves with exactly that
envelope and the transport writes are the message followed by exactly N−1
`{op: "getmore", chunksize}` continuations, the chunk size taken from the
original message. -/
theorem connection_post_chunked (message : JsObject) (chunkVal : Json)
    (events : List InboundEvent) (final : InboundEvent) (envelope : Json)
    (hcs : jsGet message "chunksize" = some chunkVal)
    (htr : chunkVal.truthy = true)
    (hmore : ∀ e ∈ events, e.more = some true)
    (hfin : ¬ final.more = some true)
    (hdec : decodeAndParse (List.foldl appendResponse "" (events ++ [final])) =
      Except.ok envelope)
    (hnull : envelope.isNull = false)
    (herr : isErrorEnvelope envelope = false) :
    Connection.post message (List.map some (events ++ [final])) =
      (message :: List.replicate events.length (getmoreWire chunkVal),
        PostOutcome.resolved envelope) := by
  have hcv : Connection.chunkValue message = chunkVal := by
    unfold Connection.chunkValue
    rw [hcs]
    dsimp only
    rw [if_pos htr]
  unfold Connection.post
  dsimp only
  rw [hcv, handleEvents_chunked chunkVal "" events final hmore hfin,
    completeResponse_resolves _ envelope hdec hnull herr]

/-- C6: on a completed exchange, a decoded `type: "error"` envelope rejects
`GNUPG_ERROR` carrying the envelope's `msg` (never resolving), and a
reassembled buffer that fails to base64-decode or JSON-parse rejects
`CONN_UNEXPECTED_ANSWER` carrying the decode failure detail. -/
theorem connection_post_error_cases (message : JsObject)
    (events : List InboundEvent) (final : InboundEvent)
    (hmore : ∀ e ∈ events, e.more = some true)
    (hfin : ¬ final.more = some true) :
    (∀ envelope : Json,
      decodeAndParse (List.foldl appendResponse "" (events ++ [final])) =
        Except.ok envelope →
      isErrorEnvelope envelope = true →
      (Connection.post message (List.map some (events ++ [final]))).2 =
        PostOutcome.rejected
          { code := ErrorCode.GNUPG_ERROR, details := envelope.getField "msg" }) ∧
    (∀ errDetail : String,
      decodeAndParse (List.foldl appendResponse "" (events ++ [final])) =
        Except.error errDetail →
      (Connection.post message (List.map some (events ++ [final]))).2 =
        PostOutcome.rejected
          { code := ErrorCode.CONN_UNEXPECTED_ANSWER,
            details := some (Json.str errDetail) }) := by
  constructor
  · intro envelope hdec herr
    show (handleEvents (Connection.chunkValue message) "" _).2 = _
    rw [handleEvents_chunked _ "" events final hmore hfin]
    exact completeResponse_gnupg_error _ envelope hdec herr
  · intro errDetail hdec
    show (handleEvents (Connection.chunkValue message) "" _).2 = _
    rw [handleEvents_chunked _ "" events final hmore hfin]
    exact completeResponse_decode_failure _ errDetail hdec

/-- C1 witness: two fragments of the base64 of an envelope reassemble into
one resolved object with exactly one `getmore` continuation echoing the
message's chunk size. -/
theorem connection_post_chunked_witness :
    Connection.post [("op", Json.str "decrypt"), ("chunksize", Json.num 10240 0)]
        (List.map some
          ([{ response := some "eyJkYXRh", more := some true }] ++
            [{ response := some "IjoiaGkifQ==", more := none }])) =
      ([("op", Json.str "decrypt"), ("chunksize", Json.num 10240 0)] ::
          List.replicate 1 (getmoreWire (Json.num 10240 0)),
        PostOutcome.resolved (Json.obj [("data", Json.str "hi")])) :=
  connection_post_chunked
    [("op", Json.str "decrypt"), ("chunksize", Json.num 10240 0)]
    (Json.num 10240 0)
    [{ response := some "eyJkYXRh", more := some true }]
    { response := some "IjoiaGkifQ==", more := none }
    (Json.obj [("data", Json.str "hi")])
    rfl rfl
    (by
      intro e he
      rw [List.mem_singleton] at he
      subst he
      rfl)
    (by simp)
    rfl rfl rfl

/-- C6 witness: a `type: "error"` envelope rejects `GNUPG_ERROR` carrying its
`msg`, and an undecodable buffer rejects `CONN_UNEXPECTED_ANSWER` with the
decode failure detail. -/
theorem connection_post_error_cases_witness :
    (Connection.post [("op", Json.str "verify"), ("chunksize", Json.num 10240 0)]
        (List.map some
          ([] ++
            [({ response := some "eyJ0eXBlIjoiZXJyb3IiLCJtc2ciOiJib29tIn0=", more := none } :
              InboundEvent)]))).2 =
      PostOutcome.rejected
        { code := ErrorCode.GNUPG_ERROR, details := some (Json.str "boom") } ∧
    (Connection.post [("op", Json.str "verify"), ("chunksize", Json.num 10240 0)]
        (List.map some
          ([] ++ [({ response := some "!!!", more := none } : InboundEvent)]))).2 =
      PostOutcome.rejected
        { code := ErrorCode.CONN_UNEXPECTED_ANSWER,
          details := some (Json.str "InvalidCharacterError") } := by
  constructor
  · have h := (connection_post_error_cases
      [("op", Json.str "verify"), ("chunksize", Json.num 10240 0)]
      [] { response := some "eyJ0eXBlIjoiZXJyb3IiLCJtc2ciOiJib29tIn0=", more := none }
      (by simp) (by simp)).1
      (Json.obj [("type", Json.str "error"), ("msg", Json.str "boom")]) rfl rfl
    exact h.trans (by rfl)
  · exact (connection_post_error_cases
      [("op", Json.str "verify"), ("chunksize", Json.num 10240 0)]
      [] { response := some "!!!", more := none }
      (by simp) (by simp)).2 "InvalidCharacterError" rfl
